import Mathlib

/-!
Verification of the Calendly proxy service (src/main.py).

The service is a thin FastAPI facade over the Calendly REST API.  We embed it
shallowly: JSON values become an inductive type, the mutable client object
becomes an explicit state record, and every outbound HTTP interaction is
mediated by an environment function from outbound requests to transport
results.  A transport-level exception (httpx raising) is the Except.error
case of the environment; an HTTP response that did arrive is the Except.ok
case, carrying the status code, the result of response.json() (itself an
Except, since JSON decoding can raise), and response.text.

Each operation returns, besides its Python return value, the updated client
state and the list of outbound requests it issued, so that frame properties
(no outbound call, no re-fetch, credentials untouched) are provable.
-/

/-- JSON values, as decoded by response.json() in Python.  Numbers are
modelled as integers; no behaviour relevant to this service distinguishes
floats. -/
inductive Json where
  | null : Json
  | bool (b : Bool) : Json
  | num (n : Int) : Json
  | str (s : String) : Json
  | arr (items : List Json) : Json
  | obj (fields : List (String × Json)) : Json
deriving Repr

/-- Key lookup in an association list of JSON object fields (first match,
like a Python dict built from unique keys). -/
def lookupField : List (String × Json) → String → Option Json
  | [], _ => none
  | (k, v) :: rest, key => if k = key then some v else lookupField rest key

/-- Python d[k] for a decoded JSON value: succeeds only when the value is an
object carrying the key; a missing key (KeyError) or a non-object receiver
(TypeError) both raise, which callers in this service catch, so Option
suffices. -/
def Json.lookup : Json → String → Option Json
  | Json.obj fields, k => lookupField fields k
  | _, _ => none

/-- Python truthiness of a decoded JSON value (bool(x)). -/
def Json.truthy : Json → Bool
  | Json.null => false
  | Json.bool b => b
  | Json.num n => n != 0
  | Json.str s => s != ""
  | Json.arr l => !l.isEmpty
  | Json.obj l => !l.isEmpty

/-- Python truthiness of an attribute that may hold None or a decoded JSON
value (used for the checks "if not self.user_uri" and "if result"). -/
def optTruthy : Option Json → Bool
  | none => false
  | some j => j.truthy

/-- Whether a JSON value is an object containing the given key. -/
def Json.hasKey (j : Json) (k : String) : Bool :=
  (j.lookup k).isSome

/-- Python data.get(k, dflt): returns the stored value (even if null) when
the key is present, the default when absent, and raises AttributeError when
the receiver is not a dict. -/
def pyDictGetD : Json → String → Json → Except String Json
  | Json.obj fields, k, dflt => Except.ok ((lookupField fields k).getD dflt)
  | _, _, _ => Except.error "AttributeError: object has no attribute get"

/-- Python len(x) on a decoded JSON value: defined for strings, lists and
dicts, raises TypeError otherwise. -/
def pyLen : Json → Except String Nat
  | Json.str s => Except.ok s.length
  | Json.arr l => Except.ok l.length
  | Json.obj l => Except.ok l.length
  | _ => Except.error "TypeError: object has no len"

/-- Evaluation of len(data.get("collection", [])), the logging expression the
200-branches of the listing and availability operations execute before
returning the body; it can raise when the body is not a dict or the stored
collection has no len. -/
def collectionCount (data : Json) : Except String Nat :=
  (pyDictGetD data "collection" (Json.arr [])).bind pyLen

/-- Python s.startswith(p): the character sequence of p is a prefix of the
character sequence of s. -/
def pyStartswith (s p : String) : Bool :=
  p.data.isPrefixOf s.data

/-- Python uri.split("/")[-1]: the trailing segment of a slash-separated
string.  str.split always returns a non-empty list, so indexing -1 never
fails; the default of getLastD is unreachable. -/
def lastSegment (s : String) : String :=
  (s.splitOn "/").getLastD ""

/-- String rendering httpx applies to a primitive query-parameter value
(httpx._utils.primitive_value_to_str): None becomes the empty string, bools
lowercase, others str(value).  A list or dict value is not given to httpx by
any reachable path of the claims; httpx would expand a list into repeated
parameters and reject a dict, both modelled here as a raised TypeError. -/
def httpxParamValue : Option Json → Except String String
  | none => Except.ok ""
  | some Json.null => Except.ok ""
  | some (Json.bool true) => Except.ok "true"
  | some (Json.bool false) => Except.ok "false"
  | some (Json.num n) => Except.ok (toString n)
  | some (Json.str s) => Except.ok s
  | some (Json.arr _) => Except.error "TypeError: invalid query parameter value"
  | some (Json.obj _) => Except.error "TypeError: invalid query parameter value"

/-- Outbound HTTP requests the service issues to the upstream provider. -/
inductive OutboundRequest where
  | get (url : String) (headers : List (String × String))
      (params : List (String × String)) : OutboundRequest
  | post (url : String) (headers : List (String × String))
      (body : Json) : OutboundRequest
deriving Repr

/-- An upstream HTTP response that arrived: its status code, the result of
response.json() (JSON decoding can raise), and response.text. -/
structure HttpResponse where
  status_code : Nat
  jsonBody : Except String Json
  text : String
deriving Repr

/-- Upstream behaviour: what each outbound request produces.  Except.error
models a transport-level exception (network unreachable etc.), carrying
str(e). -/
def Env : Type := OutboundRequest → Except String HttpResponse

/-- State of the CalendlyClient object.  base_url is os.getenv("BASE_URL")
(possibly absent); token and headers are set in __init__ and never written
again; user_uri and user_uuid are the lazily cached session identity.
user_uri holds whatever JSON value the upstream reported as the resource
uri, mirroring the untyped Python attribute. -/
structure CalendlyClient where
  base_url : Option String
  token : String
  headers : List (String × String)
  user_uri : Option Json
  user_uuid : Option String
deriving Repr

/-- Rendered base URL: an absent BASE_URL interpolates as the string "None"
inside the Python f-string building each request URL. -/
def CalendlyClient.baseUrlStr (st : CalendlyClient) : String :=
  match st.base_url with
  | none => "None"
  | some s => s

/-- Message of the ValueError raised by __init__ when the token is missing. -/
def missingTokenMsg : String :=
  "Missing Calendly API token. Please set CALENDLY_API_TOKEN in your environment."

/-- CalendlyClient.__init__: reads BASE_URL and CALENDLY_API_TOKEN from the
environment, raises ValueError when the token is absent or empty (Python
falsy), otherwise fixes the bearer headers and starts with no cached
identity. -/
def CalendlyClient.init (base_url token : Option String) :
    Except String CalendlyClient :=
  match token with
  | none => Except.error missingTokenMsg
  | some t =>
    if t = "" then Except.error missingTokenMsg
    else Except.ok
      { base_url := base_url
        token := t
        headers := [("Authorization", "Bearer " ++ t),
                    ("Content-Type", "application/json")]
        user_uri := none
        user_uuid := none }

/-- Request issued by test_connection: GET {base_url}/users/me. -/
def tcReq (st : CalendlyClient) : OutboundRequest :=
  OutboundRequest.get (st.baseUrlStr ++ "/users/me") st.headers []

/-- CalendlyClient.test_connection.  On a 200 response it runs, in source
order: user_data = response.json(); self.user_uri = user_data["resource"]["uri"];
self.user_uuid = self.user_uri.split("/")[-1]; a log line reading
user_data["resource"]["name"]; return user_data.  Any exception along the way
is caught and turns into a None result, with whatever assignments already
happened kept (Python mutates self in place).  Non-200 responses and
transport failures return None without touching the state. -/
def CalendlyClient.test_connection (st : CalendlyClient) (env : Env) :
    CalendlyClient × Option Json × List OutboundRequest :=
  let req := tcReq st
  match env req with
  | Except.error _ => (st, none, [req])
  | Except.ok response =>
    if response.status_code = 200 then
      match response.jsonBody with
      | Except.error _ => (st, none, [req])
      | Except.ok user_data =>
        match user_data.lookup "resource" with
        | none => (st, none, [req])
        | some resource =>
          match resource.lookup "uri" with
          | none => (st, none, [req])
          | some uriVal =>
            match uriVal with
            | Json.str u =>
              let st2 := { st with user_uri := some (Json.str u),
                                   user_uuid := some (lastSegment u) }
              match resource.lookup "name" with
              | none => (st2, none, [req])
              | some _ => (st2, some user_data, [req])
            | other =>
              ({ st with user_uri := some other }, none, [req])
    else (st, none, [req])

/-- Uniform soft-error body {"error": ..., "details": ...} built from a
non-success upstream response. -/
def upstreamErrorBody (status : Nat) (text : String) : Json :=
  Json.obj [("error", Json.str ("Calendly returned " ++ toString status)),
            ("details", Json.str text)]

/-- Request issued by get_event_types for the event-type listing itself. -/
def etReq (st : CalendlyClient) (userParam : String) : OutboundRequest :=
  OutboundRequest.get (st.baseUrlStr ++ "/event_types") st.headers
    [("user", userParam)]

/-- CalendlyClient.get_event_types: when the cached user_uri is falsy it
first runs test_connection (whose own request and state effects are kept),
then issues GET {base_url}/event_types with params {"user": self.user_uri}.
A 200 response returns the decoded body after the logging expression
len(data.get("collection", [])) evaluates; other statuses return the
{error, details} body; any exception caught in the try block returns
{"error": str(e)} with no details field. -/
def CalendlyClient.get_event_types (st : CalendlyClient) (env : Env) :
    CalendlyClient × Json × List OutboundRequest :=
  let pre :=
    if !optTruthy st.user_uri then
      let r := st.test_connection env
      (r.1, r.2.2)
    else (st, [])
  let st1 := pre.1
  match httpxParamValue st1.user_uri with
  | Except.error e => (st1, Json.obj [("error", Json.str e)], pre.2)
  | Except.ok userParam =>
    let req := etReq st1 userParam
    match env req with
    | Except.error e =>
      (st1, Json.obj [("error", Json.str e)], pre.2 ++ [req])
    | Except.ok response =>
      if response.status_code = 200 then
        match response.jsonBody with
        | Except.error e =>
          (st1, Json.obj [("error", Json.str e)], pre.2 ++ [req])
        | Except.ok data =>
          match collectionCount data with
          | Except.error e =>
            (st1, Json.obj [("error", Json.str e)], pre.2 ++ [req])
          | Except.ok _ => (st1, data, pre.2 ++ [req])
      else
        (st1, upstreamErrorBody response.status_code response.text,
          pre.2 ++ [req])

/-- Request issued by get_availability: the three caller-supplied values are
passed verbatim as query parameters. -/
def availReq (st : CalendlyClient)
    (event_type_uri start_time end_time : String) : OutboundRequest :=
  OutboundRequest.get (st.baseUrlStr ++ "/event_type_available_times")
    st.headers
    [("event_type", event_type_uri), ("start_time", start_time),
     ("end_time", end_time)]

/-- CalendlyClient.get_availability: GET the available-times endpoint with
the three parameters verbatim; 200 returns the decoded body (after the
collection-count logging expression evaluates), other statuses the
{error, details} body, a caught exception {"error": str(e)}.  The client
state is not touched. -/
def CalendlyClient.get_availability (st : CalendlyClient) (env : Env)
    (event_type_uri start_time end_time : String) :
    Json × List OutboundRequest :=
  let req := availReq st event_type_uri start_time end_time
  match env req with
  | Except.error e => (Json.obj [("error", Json.str e)], [req])
  | Except.ok response =>
    if response.status_code = 200 then
      match response.jsonBody with
      | Except.error e => (Json.obj [("error", Json.str e)], [req])
      | Except.ok data =>
        match collectionCount data with
        | Except.error e => (Json.obj [("error", Json.str e)], [req])
        | Except.ok _ => (data, [req])
    else
      (upstreamErrorBody response.status_code response.text, [req])

/-- Outcome of an inbound endpoint invocation, as FastAPI delivers it:
a 200 JSON body, a raised RequestValidationError (422 response with the
given loc, msg and type), a raised HTTPException with its status, or an
uncaught exception (500 internal server error). -/
inductive EndpointResult where
  | ok (body : Json) : EndpointResult
  | validationError (loc : List String) (msg : String)
      (errType : String) : EndpointResult
  | httpException (status : Nat) (detail : String) : EndpointResult
  | serverError (msg : String) : EndpointResult
deriving Repr

/-- HTTP status code of the response FastAPI sends for each outcome. -/
def EndpointResult.statusCode : EndpointResult → Nat
  | EndpointResult.ok _ => 200
  | EndpointResult.validationError _ _ _ => 422
  | EndpointResult.httpException s _ => s
  | EndpointResult.serverError _ => 500

/-- GET /api/test-connection: runs test_connection; a truthy result yields
{"status": "success", "user": result["resource"]["name"]} (the name lookup
here is uncaught, hence serverError if it failed), a falsy or absent result
yields the fixed error body. -/
def test_calendly_connection (st : CalendlyClient) (env : Env) :
    CalendlyClient × EndpointResult × List OutboundRequest :=
  let r := st.test_connection env
  let st1 := r.1
  let result := r.2.1
  let tr := r.2.2
  if optTruthy result then
    match result with
    | none => (st1, EndpointResult.serverError "unreachable", tr)
    | some j =>
      match (j.lookup "resource").bind (fun res => res.lookup "name") with
      | none => (st1, EndpointResult.serverError "KeyError", tr)
      | some nameVal =>
        (st1, EndpointResult.ok
          (Json.obj [("status", Json.str "success"), ("user", nameVal)]), tr)
  else
    (st1, EndpointResult.ok
      (Json.obj [("status", Json.str "error"),
                 ("message", Json.str "Failed to connect to Calendly")]), tr)

/-- GET /api/calendly/events: returns the get_event_types result as the
response body. -/
def get_calendly_events (st : CalendlyClient) (env : Env) :
    CalendlyClient × EndpointResult × List OutboundRequest :=
  let r := st.get_event_types env
  (r.1, EndpointResult.ok r.2.1, r.2.2)

/-- URI prefix the availability endpoint requires of appointment_type. -/
def eventTypesUriStart : String := "https://api.calendly.com/event_types/"

/-- Validation message of the availability endpoint. -/
def availValidationMsg : String :=
  "Invalid appointment_type. Please provide a valid appointment_type, You can get this from URI key in /api/calendly/events"

/-- GET /api/calendly/availability: rejects an appointment_type that does
not start with the event-types URI prefix by raising RequestValidationError
before any outbound call; otherwise proxies to get_availability. -/
def get_calendly_availability (st : CalendlyClient) (env : Env)
    (appointment_type start_time end_time : String) :
    EndpointResult × List OutboundRequest :=
  if !pyStartswith appointment_type eventTypesUriStart then
    (EndpointResult.validationError ["query", "appointment_type"]
      availValidationMsg "value_error.invalid_appointment_type", [])
  else
    let r := st.get_availability env appointment_type start_time end_time
    (EndpointResult.ok r.1, r.2)

/-- URI prefix the booking endpoint requires of appointment_type. -/
def apiUriStart : String := "https://api.calendly.com/"

/-- Validation message of the booking endpoint. -/
def bookValidationMsg : String :=
  "Invalid appointment_type. Please provide a valid event type URI."

/-- Payload the booking endpoint sends upstream, translated from the inbound
body: max_event_count defaulted to 1 when absent, appointment_type renamed
to owner, owner_type defaulted to "EventType" when absent (payload.get keeps
a stored null rather than the default). -/
def calendlyPayload (payload : List (String × Json)) (owner : String) : Json :=
  Json.obj
    [("max_event_count", (lookupField payload "max_event_count").getD (Json.num 1)),
     ("owner", Json.str owner),
     ("owner_type", (lookupField payload "owner_type").getD (Json.str "EventType"))]

/-- Request issued by the booking endpoint: POST {base_url}/scheduling_links
with the translated payload. -/
def schedReq (st : CalendlyClient) (payload : List (String × Json))
    (owner : String) : OutboundRequest :=
  OutboundRequest.post (st.baseUrlStr ++ "/scheduling_links") st.headers
    (calendlyPayload payload owner)

/-- POST /api/calendly/book.  The inbound body is a JSON object (FastAPI
Body dict).  payload.get("appointment_type") falsy raises
RequestValidationError; a truthy non-string raises AttributeError on
.startswith (uncaught, 500); a string without the api URI prefix raises
RequestValidationError; otherwise the translated payload is posted.  A 201
response returns the decoded body; other statuses return the {error,
details} body; any exception in the try block (transport failure, or
response.json() raising on a 201) is re-raised as HTTPException 500. -/
def create_scheduling_link (st : CalendlyClient) (env : Env)
    (payload : List (String × Json)) :
    EndpointResult × List OutboundRequest :=
  match lookupField payload "appointment_type" with
  | none =>
    (EndpointResult.validationError ["body", "appointment_type"]
      bookValidationMsg "value_error.invalid_appointment_type", [])
  | some j =>
    if !j.truthy then
      (EndpointResult.validationError ["body", "appointment_type"]
        bookValidationMsg "value_error.invalid_appointment_type", [])
    else
      match j with
      | Json.str s =>
        if !pyStartswith s apiUriStart then
          (EndpointResult.validationError ["body", "appointment_type"]
            bookValidationMsg "value_error.invalid_appointment_type", [])
        else
          let req := schedReq st payload s
          match env req with
          | Except.error e =>
            (EndpointResult.httpException 500
              ("Error creating scheduling link: " ++ e), [req])
          | Except.ok response =>
            if response.status_code = 201 then
              match response.jsonBody with
              | Except.error e =>
                (EndpointResult.httpException 500
                  ("Error creating scheduling link: " ++ e), [req])
              | Except.ok data => (EndpointResult.ok data, [req])
            else
              (EndpointResult.ok
                (upstreamErrorBody response.status_code response.text), [req])
      | _ =>
        (EndpointResult.serverError
          "AttributeError: object has no attribute startswith", [])

/-- Sample client state (no cached identity) used by concrete witnesses. -/
def stEx : CalendlyClient :=
  { base_url := some "https://api.calendly.com"
    token := "tok"
    headers := [("Authorization", "Bearer tok"),
                ("Content-Type", "application/json")]
    user_uri := none
    user_uuid := none }

/-- Sample client state with a cached identity, used by concrete witnesses. -/
def stExCached : CalendlyClient :=
  { stEx with
    user_uri := some (Json.str "https://api.calendly.com/users/AAAA1111")
    user_uuid := some "AAAA1111" }

/-- Sample well-formed body of the current-user endpoint. -/
def userBodyEx : Json :=
  Json.obj [("resource",
    Json.obj [("uri", Json.str "https://api.calendly.com/users/AAAA1111"),
              ("name", Json.str "Dr. Example")])]

/-- Sample environment used by concrete witnesses: answers the current-user
request with a well-formed 200 and every other GET with a 500 whose body
fails to decode. -/
def envUser200Listing500 : Env := fun r =>
  match r with
  | OutboundRequest.get url _ _ =>
    if url = "https://api.calendly.com/users/me" then
      Except.ok { status_code := 200, jsonBody := Except.ok userBodyEx,
                  text := "ok" }
    else
      Except.ok { status_code := 500, jsonBody := Except.error "nojson",
                  text := "oops" }
  | OutboundRequest.post _ _ _ => Except.error "unused"

section Lemmas

/-- Helper: a string beginning with the api URI start is non-empty, hence
Python-truthy. -/
theorem ne_empty_of_startsWith_api (s : String)
    (h : pyStartswith s apiUriStart = true) : s ≠ "" := by
  intro he
  subst he
  exact absurd h (by decide)

/-- Helper: a successful lookup forces the receiver to be an object. -/
theorem lookup_some_obj (b : Json) (k : String) (v : Json)
    (h : b.lookup k = some v) :
    ∃ fields, b = Json.obj fields ∧ lookupField fields k = some v := by
  cases b <;> simp [Json.lookup] at h ⊢
  exact h

/-- Helper: a body whose collection field is an array makes the logging
expression len(data.get("collection", [])) succeed. -/
theorem collectionCount_of_arr (b : Json) (items : List Json)
    (h : b.lookup "collection" = some (Json.arr items)) :
    collectionCount b = Except.ok items.length := by
  obtain ⟨fields, rfl, hf⟩ := lookup_some_obj b "collection" (Json.arr items) h
  simp [collectionCount, pyDictGetD, hf, pyLen, Except.bind]

end Lemmas

/-- C1: a call to the availability endpoint whose appointment_type does not
begin with the event-types URI prefix returns the 422 validation error
naming the appointment_type query field and issues no outbound request. -/
theorem availability_invalid_uri_rejected_no_outbound
    (st : CalendlyClient) (env : Env)
    (appointment_type start_time end_time : String)
    (h : pyStartswith appointment_type eventTypesUriStart = false) :
    get_calendly_availability st env appointment_type start_time end_time =
      (EndpointResult.validationError ["query", "appointment_type"]
        availValidationMsg "value_error.invalid_appointment_type", []) ∧
    (get_calendly_availability st env appointment_type
      start_time end_time).1.statusCode = 422 := by
  constructor
  · simp [get_calendly_availability, h]
  · simp [get_calendly_availability, h, EndpointResult.statusCode]

set_option maxRecDepth 8192 in
/-- Witness for C1 at a concrete invalid URI. -/
theorem availability_invalid_uri_rejected_no_outbound_witness :
    get_calendly_availability stEx (fun _ => Except.error "unreachable")
      "https://evil.example/x" "2025-11-14T20:00:00.000000Z"
      "2025-11-20T20:00:00.000000Z" =
      (EndpointResult.validationError ["query", "appointment_type"]
        availValidationMsg "value_error.invalid_appointment_type", []) :=
  (availability_invalid_uri_rejected_no_outbound stEx
    (fun _ => Except.error "unreachable") "https://evil.example/x"
    "2025-11-14T20:00:00.000000Z" "2025-11-20T20:00:00.000000Z"
    (by decide)).1

/-- C9: a test_connection call that fails with a transport exception or a
non-200 status leaves both cached identity fields exactly as they were. -/
theorem failed_test_connection_preserves_identity
    (st : CalendlyClient) (env : Env) :
    (∀ msg, env (tcReq st) = Except.error msg →
      (st.test_connection env).1.user_uri = st.user_uri ∧
      (st.test_connection env).1.user_uuid = st.user_uuid) ∧
    (∀ r, env (tcReq st) = Except.ok r → r.status_code ≠ 200 →
      (st.test_connection env).1.user_uri = st.user_uri ∧
      (st.test_connection env).1.user_uuid = st.user_uuid) := by
  constructor
  · intro msg hmsg
    simp [CalendlyClient.test_connection, hmsg]
  · intro r hr hstatus
    simp [CalendlyClient.test_connection, hr, hstatus]

/-- Witness for C9: a concrete 503 response leaves the cached identity of a
previously connected client untouched. -/
theorem failed_test_connection_preserves_identity_witness :
    (stExCached.test_connection
      (fun _ => Except.ok ⟨503, Except.error "boom", "service down"⟩)).1.user_uri
      = stExCached.user_uri ∧
    (stExCached.test_connection
      (fun _ => Except.ok ⟨503, Except.error "boom", "service down"⟩)).1.user_uuid
      = stExCached.user_uuid :=
  (failed_test_connection_preserves_identity stExCached
    (fun _ => Except.ok ⟨503, Except.error "boom", "service down"⟩)).2
    ⟨503, Except.error "boom", "service down"⟩ rfl (by decide)

/-- Helper: test_connection never writes the credential fields. -/
theorem test_connection_preserves_credentials
    (st : CalendlyClient) (env : Env) :
    (st.test_connection env).1.base_url = st.base_url ∧
    (st.test_connection env).1.token = st.token ∧
    (st.test_connection env).1.headers = st.headers := by
  unfold CalendlyClient.test_connection
  cases henv : env (tcReq st) <;> simp only [henv]
  · simp
  · repeat' split
    all_goals simp

/-- Helper: the state returned by get_event_types is the input state when the
identity was already cached, and the state test_connection produced
otherwise; in particular no later step of the listing writes the state. -/
theorem get_event_types_fst (st : CalendlyClient) (env : Env) :
    (st.get_event_types env).1 =
      (if optTruthy st.user_uri then st else (st.test_connection env).1) := by
  unfold CalendlyClient.get_event_types
  by_cases h : optTruthy st.user_uri <;> simp only [h, Bool.not_true,
    Bool.not_false, if_true, if_false, Bool.false_eq_true, ite_true, ite_false]
  all_goals repeat' split
  all_goals simp

/-- Helper: the state returned by the test-connection endpoint is the state
test_connection produced. -/
theorem test_calendly_connection_fst (st : CalendlyClient) (env : Env) :
    (test_calendly_connection st env).1 = (st.test_connection env).1 := by
  unfold test_calendly_connection
  by_cases h : optTruthy (st.test_connection env).2.1 <;>
    simp only [h, Bool.false_eq_true, ite_true, ite_false]
  cases hr : (st.test_connection env).2.1 with
  | none => rfl
  | some j =>
    cases hb : (j.lookup "resource").bind (fun res => res.lookup "name") <;>
      simp [hb]

/-- Counterexample to C4 as stated: the token environment variable being
present but empty, construction still raises ValueError, so presence of the
token alone does not make construction succeed. -/
theorem init_present_empty_token_fails :
    CalendlyClient.init (some "https://api.calendly.com") (some "") =
      Except.error missingTokenMsg := rfl

/-- C4 (amended): construction fails with the ValueError message when the
token variable is absent or present but empty; when it is present and
non-empty, construction succeeds with the bearer headers fixed from the
token and no cached identity; and no operation that touches the client
state (test_connection, get_event_types, the test-connection endpoint) ever
modifies base_url, token or headers. -/
theorem init_token_gate_and_credentials_immutable (b : Option String) :
    CalendlyClient.init b none = Except.error missingTokenMsg ∧
    CalendlyClient.init b (some "") = Except.error missingTokenMsg ∧
    (∀ t : String, t ≠ "" →
      CalendlyClient.init b (some t) = Except.ok
        { base_url := b, token := t,
          headers := [("Authorization", "Bearer " ++ t),
                      ("Content-Type", "application/json")],
          user_uri := none, user_uuid := none }) ∧
    (∀ (st : CalendlyClient) (env : Env),
      (st.test_connection env).1.base_url = st.base_url ∧
      (st.test_connection env).1.token = st.token ∧
      (st.test_connection env).1.headers = st.headers) ∧
    (∀ (st : CalendlyClient) (env : Env),
      (st.get_event_types env).1.base_url = st.base_url ∧
      (st.get_event_types env).1.token = st.token ∧
      (st.get_event_types env).1.headers = st.headers) ∧
    (∀ (st : CalendlyClient) (env : Env),
      (test_calendly_connection st env).1.base_url = st.base_url ∧
      (test_calendly_connection st env).1.token = st.token ∧
      (test_calendly_connection st env).1.headers = st.headers) := by
  refine ⟨rfl, rfl, ?_, ?_, ?_, ?_⟩
  · intro t ht
    simp [CalendlyClient.init, ht]
  · intro st env
    exact test_connection_preserves_credentials st env
  · intro st env
    have h := get_event_types_fst st env
    by_cases hc : optTruthy st.user_uri
    · simp [h, hc]
    · simp only [h, hc, if_false, Bool.false_eq_true, ite_false]
      exact test_connection_preserves_credentials st env
  · intro st env
    rw [test_calendly_connection_fst st env]
    exact test_connection_preserves_credentials st env

/-- Witness for C4 (amended) at a concrete base URL, token and environment. -/
theorem init_token_gate_and_credentials_immutable_witness :
    CalendlyClient.init (some "https://api.calendly.com") (some "tok") =
      Except.ok stEx ∧
    (stEx.test_connection (fun _ => Except.error "down")).1.headers =
      stEx.headers :=
  ⟨by
    have h := (init_token_gate_and_credentials_immutable
      (some "https://api.calendly.com")).2.2.1 "tok" (by decide)
    exact h,
   ((init_token_gate_and_credentials_immutable
      (some "https://api.calendly.com")).2.2.2.1 stEx
      (fun _ => Except.error "down")).2.2⟩

/-- Helper: test_connection issues exactly the single current-user request. -/
theorem test_connection_trace (st : CalendlyClient) (env : Env) :
    (st.test_connection env).2.2 = [tcReq st] := by
  unfold CalendlyClient.test_connection
  cases henv : env (tcReq st) <;> simp only [henv]
  all_goals repeat' split
  all_goals simp

/-- Helper: with a Python-truthy cached identity rendering to the parameter
string u, listing event types leaves the state alone and issues exactly the
one listing request with that user parameter. -/
theorem get_event_types_cached_shape (st : CalendlyClient) (env : Env)
    (u : String) (htrue : optTruthy st.user_uri = true)
    (hparam : httpxParamValue st.user_uri = Except.ok u) :
    (st.get_event_types env).1 = st ∧
    (st.get_event_types env).2.2 = [etReq st u] := by
  unfold CalendlyClient.get_event_types
  simp only [htrue, Bool.not_true, Bool.false_eq_true, ite_false, hparam]
  cases henv : env (etReq st u) <;> simp only [henv]
  all_goals repeat' split
  all_goals simp

/-- C5: test_connection on a 200 response carrying a resource uri string and
a resource name caches the account URI and its trailing segment and returns
the payload; on any non-200 status or transport failure it returns none
without raising (the operation is total), leaves the state untouched, and
the test-connection endpoint then reports the status-error body with no
identity cached. -/
theorem test_connection_success_caches_failure_swallowed
    (st : CalendlyClient) (env : Env) :
    (∀ r d res u nm, env (tcReq st) = Except.ok r → r.status_code = 200 →
      r.jsonBody = Except.ok d → d.lookup "resource" = some res →
      res.lookup "uri" = some (Json.str u) → res.lookup "name" = some nm →
      st.test_connection env =
        ({ st with user_uri := some (Json.str u),
                   user_uuid := some (lastSegment u) }, some d, [tcReq st])) ∧
    (∀ r, env (tcReq st) = Except.ok r → r.status_code ≠ 200 →
      st.test_connection env = (st, none, [tcReq st]) ∧
      test_calendly_connection st env =
        (st, EndpointResult.ok (Json.obj [("status", Json.str "error"),
          ("message", Json.str "Failed to connect to Calendly")]),
          [tcReq st])) ∧
    (∀ msg, env (tcReq st) = Except.error msg →
      st.test_connection env = (st, none, [tcReq st]) ∧
      test_calendly_connection st env =
        (st, EndpointResult.ok (Json.obj [("status", Json.str "error"),
          ("message", Json.str "Failed to connect to Calendly")]),
          [tcReq st])) := by
  refine ⟨?_, ?_, ?_⟩
  · intro r d res u nm henv hstatus hbody hres huri hname
    unfold CalendlyClient.test_connection
    simp [henv, hstatus, hbody, hres, huri, hname]
  · intro r henv hstatus
    have htc : st.test_connection env = (st, none, [tcReq st]) := by
      unfold CalendlyClient.test_connection
      simp [henv, hstatus]
    refine ⟨htc, ?_⟩
    unfold test_calendly_connection
    rw [htc]
    rfl
  · intro msg henv
    have htc : st.test_connection env = (st, none, [tcReq st]) := by
      unfold CalendlyClient.test_connection
      simp [henv]
    refine ⟨htc, ?_⟩
    unfold test_calendly_connection
    rw [htc]
    rfl

/-- Witness for C5 at a concrete 200 response with a well-formed body. -/
theorem test_connection_success_caches_witness :
    stEx.test_connection (fun _ => Except.ok ⟨200, Except.ok userBodyEx, "ok"⟩) =
      ({ stEx with
          user_uri := some (Json.str "https://api.calendly.com/users/AAAA1111"),
          user_uuid := some (lastSegment "https://api.calendly.com/users/AAAA1111") },
        some userBodyEx, [tcReq stEx]) :=
  (test_connection_success_caches_failure_swallowed stEx
    (fun _ => Except.ok ⟨200, Except.ok userBodyEx, "ok"⟩)).1
    ⟨200, Except.ok userBodyEx, "ok"⟩ userBodyEx
    (Json.obj [("uri", Json.str "https://api.calendly.com/users/AAAA1111"),
               ("name", Json.str "Dr. Example")])
    "https://api.calendly.com/users/AAAA1111" (Json.str "Dr. Example")
    rfl rfl rfl rfl rfl rfl

/-- C3: with a cached identity (a non-empty URI string, the Python-truthy
case), listing event types issues exactly one outbound request, the listing
request carrying the cached URI as the user parameter, and leaves the state
unchanged; with no cached identity it first issues the connection-test
request and proceeds from the state test_connection produced. -/
theorem cached_identity_reused_by_event_types
    (st : CalendlyClient) (env : Env) :
    (∀ u, st.user_uri = some (Json.str u) → u ≠ "" →
      (st.get_event_types env).1 = st ∧
      (st.get_event_types env).2.2 = [etReq st u]) ∧
    (optTruthy st.user_uri = false →
      (st.get_event_types env).1 = (st.test_connection env).1 ∧
      (st.get_event_types env).2.2.head? = some (tcReq st)) := by
  constructor
  · intro u hcache hne
    have htrue : optTruthy st.user_uri = true := by
      rw [hcache]
      simp [optTruthy, Json.truthy, hne]
    have hparam : httpxParamValue st.user_uri = Except.ok u := by
      rw [hcache]
      rfl
    exact get_event_types_cached_shape st env u htrue hparam
  · intro h
    refine ⟨?_, ?_⟩
    · rw [get_event_types_fst st env, h]
      simp
    · unfold CalendlyClient.get_event_types
      simp only [h, Bool.not_false, ite_true]
      rw [test_connection_trace st env]
      repeat' split
      all_goals simp

/-- Witness for C3: with the concrete cached state the listing issues only
the event-types request with the cached URI, and with the uncached state the
first request is the current-user one. -/
theorem cached_identity_reused_by_event_types_witness :
    (stExCached.get_event_types (fun _ =>
        Except.ok ⟨200, Except.ok (Json.obj [("collection", Json.arr [])]), "ok"⟩)).2.2 =
      [etReq stExCached "https://api.calendly.com/users/AAAA1111"] ∧
    (stEx.get_event_types (fun _ =>
        Except.ok ⟨200, Except.ok userBodyEx, "ok"⟩)).1 =
      (stEx.test_connection (fun _ =>
        Except.ok ⟨200, Except.ok userBodyEx, "ok"⟩)).1 :=
  ⟨((cached_identity_reused_by_event_types stExCached (fun _ =>
      Except.ok ⟨200, Except.ok (Json.obj [("collection", Json.arr [])]), "ok"⟩)).1
      "https://api.calendly.com/users/AAAA1111" rfl (by decide)).2,
   ((cached_identity_reused_by_event_types stEx (fun _ =>
      Except.ok ⟨200, Except.ok userBodyEx, "ok"⟩)).2 rfl).1⟩

/-- Helper: once booking validation passes (appointment_type is a string
with the api URI start), the endpoint posts the translated payload and maps
the transport result as the source's try block does. -/
theorem create_scheduling_link_valid (st : CalendlyClient) (env : Env)
    (payload : List (String × Json)) (s : String)
    (hat : lookupField payload "appointment_type" = some (Json.str s))
    (hpfx : pyStartswith s apiUriStart = true) :
    create_scheduling_link st env payload =
      ((match env (schedReq st payload s) with
        | Except.error e =>
          EndpointResult.httpException 500
            ("Error creating scheduling link: " ++ e)
        | Except.ok response =>
          if response.status_code = 201 then
            match response.jsonBody with
            | Except.error e =>
              EndpointResult.httpException 500
                ("Error creating scheduling link: " ++ e)
            | Except.ok data => EndpointResult.ok data
          else
            EndpointResult.ok
              (upstreamErrorBody response.status_code response.text)),
        [schedReq st payload s]) := by
  have hne := ne_empty_of_startsWith_api s hpfx
  have htr : Json.truthy (Json.str s) = true := by
    simp [Json.truthy, hne]
  unfold create_scheduling_link
  simp only [hat, htr, Bool.not_true, Bool.false_eq_true, ite_false, hpfx]
  cases henv : env (schedReq st payload s) <;> simp only [henv]
  all_goals repeat' split
  all_goals simp_all

/-- C2: for a booking request that passes validation, a 201 upstream
response is returned verbatim; any other status yields the ordinary
{error, details} body whose error string embeds the upstream status (it is
exactly "Calendly returned " followed by the code); a transport exception
raises HTTPException and the endpoint answers 500 instead of a soft
payload. -/
theorem booking_upstream_dispatch (st : CalendlyClient) (env : Env)
    (payload : List (String × Json)) (s : String)
    (hat : lookupField payload "appointment_type" = some (Json.str s))
    (hpfx : pyStartswith s apiUriStart = true) :
    (∀ r d, env (schedReq st payload s) = Except.ok r → r.status_code = 201 →
      r.jsonBody = Except.ok d →
      create_scheduling_link st env payload =
        (EndpointResult.ok d, [schedReq st payload s])) ∧
    (∀ r, env (schedReq st payload s) = Except.ok r → r.status_code ≠ 201 →
      create_scheduling_link st env payload =
        (EndpointResult.ok (upstreamErrorBody r.status_code r.text),
          [schedReq st payload s])) ∧
    (∀ e, env (schedReq st payload s) = Except.error e →
      create_scheduling_link st env payload =
        (EndpointResult.httpException 500
          ("Error creating scheduling link: " ++ e),
          [schedReq st payload s]) ∧
      (create_scheduling_link st env payload).1.statusCode = 500) := by
  have hvalid := create_scheduling_link_valid st env payload s hat hpfx
  refine ⟨?_, ?_, ?_⟩
  · intro r d henv hstatus hbody
    rw [hvalid, henv]
    simp [hstatus, hbody]
  · intro r henv hstatus
    rw [hvalid, henv]
    simp [hstatus]
  · intro e henv
    rw [hvalid, henv]
    simp [EndpointResult.statusCode]

set_option maxRecDepth 8192 in
/-- Witness for C2 at a concrete 403 upstream response. -/
theorem booking_upstream_dispatch_witness :
    create_scheduling_link stEx
      (fun _ => Except.ok ⟨403, Except.error "nojson", "forbidden"⟩)
      [("appointment_type",
        Json.str "https://api.calendly.com/event_types/abc")] =
      (EndpointResult.ok (upstreamErrorBody 403 "forbidden"),
        [schedReq stEx
          [("appointment_type",
            Json.str "https://api.calendly.com/event_types/abc")]
          "https://api.calendly.com/event_types/abc"]) :=
  ((booking_upstream_dispatch stEx
      (fun _ => Except.ok ⟨403, Except.error "nojson", "forbidden"⟩)
      [("appointment_type",
        Json.str "https://api.calendly.com/event_types/abc")]
      "https://api.calendly.com/event_types/abc" rfl (by decide)).2.1
    ⟨403, Except.error "nojson", "forbidden"⟩ rfl (by decide))

/-- C6: a validated booking body that omits both owner_type and
max_event_count is translated into the outbound payload with owner_type
defaulted to EventType, max_event_count defaulted to 1 and the supplied
appointment_type renamed to owner, and exactly that payload is posted. -/
theorem booking_payload_defaults (st : CalendlyClient) (env : Env)
    (payload : List (String × Json)) (s : String)
    (hat : lookupField payload "appointment_type" = some (Json.str s))
    (hpfx : pyStartswith s apiUriStart = true)
    (hmax : lookupField payload "max_event_count" = none)
    (howner : lookupField payload "owner_type" = none) :
    calendlyPayload payload s =
      Json.obj [("max_event_count", Json.num 1), ("owner", Json.str s),
                ("owner_type", Json.str "EventType")] ∧
    (create_scheduling_link st env payload).2 =
      [OutboundRequest.post (st.baseUrlStr ++ "/scheduling_links") st.headers
        (Json.obj [("max_event_count", Json.num 1), ("owner", Json.str s),
                   ("owner_type", Json.str "EventType")])] := by
  have hcp : calendlyPayload payload s =
      Json.obj [("max_event_count", Json.num 1), ("owner", Json.str s),
                ("owner_type", Json.str "EventType")] := by
    simp [calendlyPayload, hmax, howner]
  refine ⟨hcp, ?_⟩
  rw [create_scheduling_link_valid st env payload s hat hpfx]
  simp [schedReq, hcp]

set_option maxRecDepth 8192 in
/-- Witness for C6 at a concrete one-field body. -/
theorem booking_payload_defaults_witness :
    (create_scheduling_link stEx
      (fun _ => Except.ok ⟨201, Except.ok Json.null, ""⟩)
      [("appointment_type",
        Json.str "https://api.calendly.com/event_types/abc")]).2 =
      [OutboundRequest.post "https://api.calendly.com/scheduling_links"
        stEx.headers
        (Json.obj [("max_event_count", Json.num 1),
          ("owner", Json.str "https://api.calendly.com/event_types/abc"),
          ("owner_type", Json.str "EventType")])] :=
  (booking_payload_defaults stEx
    (fun _ => Except.ok ⟨201, Except.ok Json.null, ""⟩)
    [("appointment_type",
      Json.str "https://api.calendly.com/event_types/abc")]
    "https://api.calendly.com/event_types/abc" rfl (by decide) rfl rfl).2

/-- C8: a valid availability call whose upstream answers 200 with a body
holding a collection array returns that body unmodified, having issued
exactly one outbound request carrying the three caller-supplied values
verbatim as query parameters. -/
theorem availability_passthrough (st : CalendlyClient) (env : Env)
    (a s e : String) (r : HttpResponse) (b : Json) (items : List Json)
    (hpfx : pyStartswith a eventTypesUriStart = true)
    (henv : env (availReq st a s e) = Except.ok r)
    (hstatus : r.status_code = 200)
    (hbody : r.jsonBody = Except.ok b)
    (hcoll : b.lookup "collection" = some (Json.arr items)) :
    get_calendly_availability st env a s e =
      (EndpointResult.ok b, [availReq st a s e]) := by
  have hcc := collectionCount_of_arr b items hcoll
  unfold get_calendly_availability CalendlyClient.get_availability
  simp [hpfx, henv, hstatus, hbody, hcc]

set_option maxRecDepth 8192 in
/-- Witness for C8 at a concrete 200 response with a two-slot collection. -/
theorem availability_passthrough_witness :
    get_calendly_availability stEx
      (fun _ => Except.ok ⟨200,
        Except.ok (Json.obj [("collection",
          Json.arr [Json.str "slot1", Json.str "slot2"])]), "ok"⟩)
      "https://api.calendly.com/event_types/abc" "2025-11-14" "2025-11-20" =
      (EndpointResult.ok (Json.obj [("collection",
          Json.arr [Json.str "slot1", Json.str "slot2"])]),
        [availReq stEx "https://api.calendly.com/event_types/abc"
          "2025-11-14" "2025-11-20"]) :=
  availability_passthrough stEx
    (fun _ => Except.ok ⟨200,
      Except.ok (Json.obj [("collection",
        Json.arr [Json.str "slot1", Json.str "slot2"])]), "ok"⟩)
    "https://api.calendly.com/event_types/abc" "2025-11-14" "2025-11-20"
    ⟨200, Except.ok (Json.obj [("collection",
      Json.arr [Json.str "slot1", Json.str "slot2"])]), "ok"⟩
    (Json.obj [("collection", Json.arr [Json.str "slot1", Json.str "slot2"])])
    [Json.str "slot1", Json.str "slot2"]
    (by decide) rfl rfl rfl rfl

/-- Helper: with a Python-truthy cached identity rendering to the parameter
string u, the body the listing returns is determined by the environment at
the listing request as in the source's branches. -/
theorem get_event_types_cached_result (st : CalendlyClient) (env : Env)
    (u : String) (htrue : optTruthy st.user_uri = true)
    (hparam : httpxParamValue st.user_uri = Except.ok u) :
    (st.get_event_types env).2.1 =
      (match env (etReq st u) with
       | Except.error e => Json.obj [("error", Json.str e)]
       | Except.ok response =>
         if response.status_code = 200 then
           match response.jsonBody with
           | Except.error e => Json.obj [("error", Json.str e)]
           | Except.ok data =>
             match collectionCount data with
             | Except.error e => Json.obj [("error", Json.str e)]
             | Except.ok _ => data
         else upstreamErrorBody response.status_code response.text) := by
  unfold CalendlyClient.get_event_types
  simp only [htrue, Bool.not_true, Bool.false_eq_true, ite_false, hparam]
  cases henv : env (etReq st u) <;> simp only [henv]
  all_goals repeat' split
  all_goals simp_all

/-- Helper: for any client, cached or fresh, the body the listing returns
is determined by the environment at the listing request issued from the
post-lazy-fetch state, which is exactly the state the operation returns
(get_event_types_fst).  The hypothesis that the user parameter rendered to
a string holds whenever a listing request reached the upstream at all; when
rendering raises, no request is sent and no upstream failure exists. -/
theorem get_event_types_result (st : CalendlyClient) (env : Env)
    (u : String)
    (hparam : httpxParamValue (st.get_event_types env).1.user_uri =
      Except.ok u) :
    (st.get_event_types env).2.1 =
      (match env (etReq (st.get_event_types env).1 u) with
       | Except.error e => Json.obj [("error", Json.str e)]
       | Except.ok response =>
         if response.status_code = 200 then
           match response.jsonBody with
           | Except.error e => Json.obj [("error", Json.str e)]
           | Except.ok data =>
             match collectionCount data with
             | Except.error e => Json.obj [("error", Json.str e)]
             | Except.ok _ => data
         else upstreamErrorBody response.status_code response.text) := by
  have hfst := get_event_types_fst st env
  by_cases h : optTruthy st.user_uri
  · rw [hfst] at hparam ⊢
    simp only [h, ite_true] at hparam ⊢
    exact get_event_types_cached_result st env u h hparam
  · rw [hfst] at hparam ⊢
    simp only [h, Bool.false_eq_true, ite_false] at hparam ⊢
    unfold CalendlyClient.get_event_types
    simp only [h, Bool.not_false, ite_true, hparam]
    cases henv : env (etReq (st.test_connection env).1 u) <;>
      simp only [henv]
    all_goals repeat' split
    all_goals simp_all

/-- Counterexample to C7 as stated: a transport exception during a valid
availability call produces a body with an error field but no details field,
so not every failure carries both fields. -/
theorem availability_exception_lacks_details :
    ((stEx.get_availability (fun _ => Except.error "Network unreachable")
      "https://api.calendly.com/event_types/abc" "2025-11-14"
      "2025-11-20").1.hasKey "error" = true) ∧
    ((stEx.get_availability (fun _ => Except.error "Network unreachable")
      "https://api.calendly.com/event_types/abc" "2025-11-14"
      "2025-11-20").1.hasKey "details" = false) := by
  exact ⟨rfl, rfl⟩

/-- C7 (amended): when the upstream answers the listing or availability
request with a non-success status the operation returns the {error, details}
body containing both fields; when a transport exception occurs it returns a
body containing the error field only, with no details field. -/
theorem soft_error_payload_shape (st : CalendlyClient) (env : Env)
    (a s e : String) :
    (∀ r, env (availReq st a s e) = Except.ok r → r.status_code ≠ 200 →
      (st.get_availability env a s e).1 =
        upstreamErrorBody r.status_code r.text ∧
      (st.get_availability env a s e).1.hasKey "error" = true ∧
      (st.get_availability env a s e).1.hasKey "details" = true) ∧
    (∀ msg, env (availReq st a s e) = Except.error msg →
      (st.get_availability env a s e).1 = Json.obj [("error", Json.str msg)] ∧
      (st.get_availability env a s e).1.hasKey "error" = true ∧
      (st.get_availability env a s e).1.hasKey "details" = false) ∧
    (∀ u r, httpxParamValue (st.get_event_types env).1.user_uri =
        Except.ok u →
      env (etReq (st.get_event_types env).1 u) = Except.ok r →
      r.status_code ≠ 200 →
      (st.get_event_types env).2.1 =
        upstreamErrorBody r.status_code r.text ∧
      (st.get_event_types env).2.1.hasKey "error" = true ∧
      (st.get_event_types env).2.1.hasKey "details" = true) ∧
    (∀ u msg, httpxParamValue (st.get_event_types env).1.user_uri =
        Except.ok u →
      env (etReq (st.get_event_types env).1 u) = Except.error msg →
      (st.get_event_types env).2.1 = Json.obj [("error", Json.str msg)] ∧
      (st.get_event_types env).2.1.hasKey "error" = true ∧
      (st.get_event_types env).2.1.hasKey "details" = false) := by
  refine ⟨?_, ?_, ?_, ?_⟩
  · intro r henv hstatus
    have hb : (st.get_availability env a s e).1 =
        upstreamErrorBody r.status_code r.text := by
      unfold CalendlyClient.get_availability
      simp [henv, hstatus]
    exact ⟨hb, by rw [hb]; rfl, by rw [hb]; rfl⟩
  · intro msg henv
    have hb : (st.get_availability env a s e).1 =
        Json.obj [("error", Json.str msg)] := by
      unfold CalendlyClient.get_availability
      simp [henv]
    exact ⟨hb, by rw [hb]; rfl, by rw [hb]; rfl⟩
  · intro u r hparam henv hstatus
    have hb : (st.get_event_types env).2.1 =
        upstreamErrorBody r.status_code r.text := by
      rw [get_event_types_result st env u hparam, henv]
      simp [hstatus]
    exact ⟨hb, by rw [hb]; rfl, by rw [hb]; rfl⟩
  · intro u msg hparam henv
    have hb : (st.get_event_types env).2.1 =
        Json.obj [("error", Json.str msg)] := by
      rw [get_event_types_result st env u hparam, henv]
    exact ⟨hb, by rw [hb]; rfl, by rw [hb]; rfl⟩

set_option maxRecDepth 16384 in
/-- Witness for C7 (amended): a fresh client whose listing request draws a
concrete 500 gets a body carrying both fields, and a concrete transport
exception during availability yields a body with no details field. -/
theorem soft_error_payload_shape_witness :
    (stEx.get_event_types envUser200Listing500).2.1 =
      upstreamErrorBody 500 "oops" ∧
    (stEx.get_availability (fun _ => Except.error "boom")
      "https://api.calendly.com/event_types/abc" "2025-11-14"
      "2025-11-20").1.hasKey "details" = false :=
  ⟨((soft_error_payload_shape stEx envUser200Listing500
      "x" "y" "z").2.2.1 "https://api.calendly.com/users/AAAA1111"
      ⟨500, Except.error "nojson", "oops"⟩ rfl rfl (by decide)).1,
   ((soft_error_payload_shape stEx (fun _ => Except.error "boom")
      "https://api.calendly.com/event_types/abc" "2025-11-14"
      "2025-11-20").2.1 "boom" rfl).2.2⟩

set_option maxRecDepth 8192 in
/-- C10: booking accepts any appointment_type string with the bare api URI
start and forwards it upstream as the owner field of the translated payload,
while the availability endpoint demands the longer event-types URI start;
the concrete URI https://api.calendly.com/users/x passes the former and is
rejected by the latter with the 422 validation error and no outbound call. -/
theorem booking_validation_weaker_than_availability :
    (∀ (st : CalendlyClient) (env : Env) (payload : List (String × Json))
      (s : String),
      lookupField payload "appointment_type" = some (Json.str s) →
      pyStartswith s apiUriStart = true →
      (create_scheduling_link st env payload).2 = [schedReq st payload s] ∧
      (calendlyPayload payload s).lookup "owner" = some (Json.str s)) ∧
    pyStartswith "https://api.calendly.com/users/x" apiUriStart = true ∧
    pyStartswith "https://api.calendly.com/users/x" eventTypesUriStart
      = false ∧
    (∀ (st : CalendlyClient) (env : Env) (s e : String),
      get_calendly_availability st env "https://api.calendly.com/users/x"
        s e =
        (EndpointResult.validationError ["query", "appointment_type"]
          availValidationMsg "value_error.invalid_appointment_type", [])) := by
  refine ⟨?_, by decide, by decide, ?_⟩
  · intro st env payload s hat hpfx
    constructor
    · rw [create_scheduling_link_valid st env payload s hat hpfx]
    · rfl
  · intro st env s e
    have h : pyStartswith "https://api.calendly.com/users/x"
        eventTypesUriStart = false := by decide
    simp [get_calendly_availability, h]

set_option maxRecDepth 8192 in
/-- Witness for C10: at the concrete divergent URI, booking posts the
translated payload while availability rejects with the validation error. -/
theorem booking_validation_weaker_than_availability_witness :
    (create_scheduling_link stEx
      (fun _ => Except.ok ⟨201, Except.ok Json.null, ""⟩)
      [("appointment_type",
        Json.str "https://api.calendly.com/users/x")]).2 =
      [schedReq stEx
        [("appointment_type", Json.str "https://api.calendly.com/users/x")]
        "https://api.calendly.com/users/x"] ∧
    get_calendly_availability stEx
      (fun _ => Except.ok ⟨201, Except.ok Json.null, ""⟩)
      "https://api.calendly.com/users/x" "2025-11-14" "2025-11-20" =
      (EndpointResult.validationError ["query", "appointment_type"]
        availValidationMsg "value_error.invalid_appointment_type", []) :=
  ⟨(booking_validation_weaker_than_availability.1 stEx
      (fun _ => Except.ok ⟨201, Except.ok Json.null, ""⟩)
      [("appointment_type", Json.str "https://api.calendly.com/users/x")]
      "https://api.calendly.com/users/x" rfl (by decide)).1,
   booking_validation_weaker_than_availability.2.2.2 stEx
      (fun _ => Except.ok ⟨201, Except.ok Json.null, ""⟩)
      "2025-11-14" "2025-11-20"⟩
